import Mathlib

/-!
Shallow embedding of `deploy_mxs_vm.py` (class `Stage1`), the single source
file of the MXS-VM-Deployment repository, together with theorems settling the
frozen claims about its specification.

External effects (subprocess exit codes, filesystem facts, exceptions raised
by library calls) are inputs to the embedded functions: each outcome that the
Python code branches on is a parameter (an "oracle" field).  Python control
flow is made explicit:

* `PyFlow.ok`     — the function returned normally;
* `PyFlow.exc`    — an `Exception` is propagating (catchable by `except Exception`);
* `PyFlow.exited` — `self.fail` ran `sys.exit(1)` (a `SystemExit`, which is
  not caught by `except Exception` but still triggers `finally` blocks).

Log lines and invoked commands are recorded as a trace of `Ev` events.
-/

namespace MXS

/-- Observable events of a run: invoked external commands, log lines at the
various levels, and recursive tree copies (`shutil.copytree`). -/
inductive Ev
  | cmd (c : List String)
  | warn (m : String)
  | err (m : String)
  | info (m : String)
  | copyOp (src dest : String)
  deriving DecidableEq, Repr

/-- Python control flow status after a modelled call. -/
inductive PyFlow
  | ok
  | exc
  | exited
  deriving DecidableEq, Repr

/-! ## Resource allocation (`auto_allocation`, `validate_allocation`) -/

/-- `auto_allocation`: halve each available quantity with integer division
(Python `//` on the nonnegative quantities produced by `resource_assessment`). -/
def auto_allocation (available_ram_mb available_cpus available_disk_gb : Nat) :
    Nat × Nat × Nat :=
  (available_ram_mb / 2, available_cpus / 2, available_disk_gb / 2)

/-- `validate_allocation`: `self.fail("Invalid resource allocation.")` when any
allocated dimension strictly exceeds its available counterpart, else return
normally.  Values are integers (`int(input())` in manual allocation can be
negative), so the embedding uses `Int`. -/
def validate_allocation (allocated_ram allocated_cpus allocated_disk : Int)
    (available_ram_mb available_cpus available_disk_gb : Int) :
    Except String Unit :=
  if allocated_ram > available_ram_mb ∨ allocated_cpus > available_cpus ∨
      allocated_disk > available_disk_gb then
    .error "Invalid resource allocation."
  else
    .ok ()

/-! ## ISO choice prompt and main dispatch -/

/-- The menu inputs accepted by `prompt_for_iso_choice`. -/
def valid_choices : List String := ["1", "2", "3"]

/-- The `while True` re-prompt loop of `prompt_for_iso_choice`, fed a list of
successive user inputs; it returns the first input that is one of
`"1"/"2"/"3"` and keeps prompting (here: `none`) otherwise. -/
def prompt_for_iso_choice_loop : List String → Option String
  | [] => none
  | c :: rest => if c ∈ valid_choices then some c else prompt_for_iso_choice_loop rest

/-- The four branches of `main`'s dispatch over the returned choice. -/
inductive MainDispatch
  | userProvided
  | createWithVirtio
  | downloaded
  | invalidFatal
  deriving DecidableEq, Repr

/-- `main`'s `if/elif/else` over `user_choice`. -/
def main_dispatch (choice : String) : MainDispatch :=
  if choice = "1" then .userProvided
  else if choice = "2" then .createWithVirtio
  else if choice = "3" then .downloaded
  else .invalidFatal

/-- `handle_user_provided_iso`: mode 1 simply returns the provided path. -/
def handle_user_provided_iso (provided_win_iso : String) : String :=
  provided_win_iso

/-! ## UEFI firmware resolution (`get_uefi_path`, the check in `create_vm`) -/

/-- The fixed allow-list of OS-release `ID=` values in `get_uefi_path`. -/
def uefi_allow_list : List String := ["ubuntu", "pop", "debian", "linuxmint"]

/-- The single firmware path returned for every supported distribution. -/
def uefi_firmware_path : String := "/usr/share/OVMF/OVMF_CODE_4M.fd"

/-- `get_uefi_path`: the distribution identifier parsed from `/etc/os-release`
is checked against the allow-list; an unsupported identifier is fatal. -/
def get_uefi_path (distro : String) : Except String String :=
  if distro ∈ uefi_allow_list then .ok uefi_firmware_path
  else .error "Unsupported Linux distribution for UEFI firmware."

/-- The firmware-existence check at the start of `create_vm`: resolve the
path, then `os.path.isfile` (given as an oracle) must hold or the run fails. -/
def create_vm_uefi_check (distro : String) (isfile : String → Bool) :
    Except String String :=
  match get_uefi_path distro with
  | .error e => .error e
  | .ok p => if isfile p then .ok p else .error ("UEFI firmware not found at specified path: " ++ p)

/-- A filesystem oracle on which no path exists, used to instantiate theorems. -/
def no_file : String → Bool := fun _ => false

/-! ## Text patching (`modify_config` via `sudo_cat_read` / `sudo_tee_write`) -/

/-- Python's substring test `pat in s`, on character lists. -/
def containsSub : List Char → List Char → Bool
  | s, pat =>
    pat.isPrefixOf s ||
      match s with
      | [] => false
      | _ :: t => containsSub t pat

/-- Recursion core of `replaceSub`: the fuel is an upper bound on the number
of scan positions, so the recursion is structural (and hence computable by the
kernel); every call strictly shortens the scanned list, so fuel
`s.length` never runs out. -/
def replaceSubAux (pat rep : List Char) : Nat → List Char → List Char
  | _, [] => []
  | 0, s => s
  | fuel + 1, c :: t =>
    if pat ≠ [] ∧ pat.isPrefixOf (c :: t) then
      rep ++ replaceSubAux pat rep fuel ((c :: t).drop pat.length)
    else
      c :: replaceSubAux pat rep fuel t

/-- Python's `s.replace(pat, rep)` for a nonempty pattern: scan left to right,
replacing non-overlapping occurrences.  (The program only ever calls it with
nonempty literal search strings; an empty pattern is left as the identity.) -/
def replaceSub (pat rep s : List Char) : List Char :=
  replaceSubAux pat rep s.length s

/-- Config paths touched by `setup_libvirt`. -/
def LIBVIRT_CONFIG_PATH : String := "/etc/libvirt/libvirtd.conf"

/-- The QEMU daemon configuration path. -/
def QEMU_CONFIG_PATH : String := "/etc/libvirt/qemu.conf"

/-- The commented socket-group directive searched for in `libvirtd.conf`. -/
def sock_group_commented : List Char := "#unix_sock_group = \"libvirt\"".toList

/-- Its uncommented replacement. -/
def sock_group_uncommented : List Char := "unix_sock_group = \"libvirt\"".toList

/-- The commented socket-permissions directive searched for in `libvirtd.conf`. -/
def sock_perms_commented : List Char := "#unix_sock_rw_perms = \"0770\"".toList

/-- Its uncommented replacement. -/
def sock_perms_uncommented : List Char := "unix_sock_rw_perms = \"0770\"".toList

/-- `modify_config`: read the file through `sudo cat` (a failed read is fatal:
`sudo_cat_read` calls `self.fail`), replace the search string if present and
write back through `sudo tee` (a failed write is fatal), otherwise log a
warning and skip.  `readOk`/`writeOk` are the outcomes of the two elevated
subprocesses; the returned list of characters is the file's content after the
call. -/
def modify_config (path : String) (content search_string replace_string : List Char)
    (readOk writeOk : Bool) : List Char × List Ev × PyFlow :=
  if ¬ readOk then
    (content, [.cmd ["sudo", "cat", path], .err ("Failed to read " ++ path)], .exited)
  else if containsSub content search_string then
    if writeOk then
      (replaceSub search_string replace_string content,
       [.cmd ["sudo", "cat", path], .cmd ["sudo", "tee", path],
        .info ("Modified " ++ path ++ ".")], .ok)
    else
      (content,
       [.cmd ["sudo", "cat", path], .cmd ["sudo", "tee", path],
        .err ("Failed to modify " ++ path)], .exited)
  else
    (content,
     [.cmd ["sudo", "cat", path],
      .warn ("Search string not found in " ++ path)], .ok)

/-! ## Subprocess wrapper and mount bookkeeping -/

/-- `run_subprocess`: `subprocess.run(..., check=True)`; a non-zero exit raises
`CalledProcessError`, which is logged with the captured standard-error and
re-raised as a generic `Exception` carrying the failure message. -/
def run_subprocess (c : List String) (exitCode : Nat) (stderr : String) :
    List Ev × PyFlow :=
  if exitCode ≠ 0 then
    ([.cmd c, .err ("Command failed. Error: " ++ stderr)], .exc)
  else
    ([.cmd c], .ok)

/-- The host mount table, restricted to the mount points this program touches. -/
structure MountState where
  mounted : List String
  deriving DecidableEq, Repr

/-- `is_mounted` (`os.path.ismount`). -/
def is_mounted (st : MountState) (path : String) : Bool :=
  st.mounted.contains path

/-- Environment outcomes for one `unmount` call: whether `subprocess.run`
raised `PermissionError`, the `umount` exit code and captured stderr, and
whether the directory is still non-empty afterwards (`any(iterdir())`). -/
structure UnmountOracle where
  permError : Bool
  exitCode : Nat
  stderr : String
  nonEmptyAfter : Bool
  deriving Repr

/-- `unmount`: a not-mounted path is a logged warning and an early return
(no command is run); otherwise run `sudo umount`, where a `PermissionError`,
a non-zero exit, or a non-empty directory afterwards each end in `self.fail`
(`sys.exit(1)`). -/
def unmount (st : MountState) (o : UnmountOracle) (mount_point : String) :
    MountState × List Ev × PyFlow :=
  if ¬ is_mounted st mount_point then
    (st, [.warn (mount_point ++ " is not mounted.")], .ok)
  else if o.permError then
    (st, [.cmd ["sudo", "umount", mount_point],
          .err ("Permission error occurred while unmounting " ++ mount_point),
          .err ("Failed to unmount " ++ mount_point ++ " due to permission error.")],
     .exited)
  else
    match run_subprocess ["sudo", "umount", mount_point] o.exitCode o.stderr with
    | (evs, .exc) =>
      (st, evs ++ [.err ("Failed to unmount " ++ mount_point)], .exited)
    | (evs, _) =>
      let st' : MountState := ⟨st.mounted.erase mount_point⟩
      if o.nonEmptyAfter then
        (st', evs ++ [.err ("Failed to unmount " ++ mount_point ++ ". The directory is not empty.")],
         .exited)
      else
        (st', evs ++ [.info ("Successfully unmounted " ++ mount_point ++ ".")], .ok)

/-- A config file content holding the socket-group directive with a doubled
comment character: it contains the exact search string, but patching it once
leaves a content that still contains the search string. -/
def doubled_comment_content : List Char := "##unix_sock_group = \"libvirt\"\n".toList

/-- A config file content holding the commented socket-group directive once. -/
def commented_once_content : List Char := "#unix_sock_group = \"libvirt\"\n".toList

/-- The once-patched form of `commented_once_content`. -/
def uncommented_once_content : List Char := "unix_sock_group = \"libvirt\"\n".toList

/-! ## Composite ISO build flow (`create_custom_iso` and its helpers)

The scratch directories are `TemporaryDirectory` names in the source; the
embedding uses fixed symbolic names for them. -/

/-- Mount point for the VirtIO driver ISO. -/
def virtio_mount_dir : String := "virtio_mount_dir"

/-- Mount point for the Windows ISO. -/
def windows_mount_dir : String := "windows_mount_dir"

/-- Scratch directory receiving the VirtIO driver tree. -/
def drivers_dir : String := "drivers_dir"

/-- Scratch directory receiving the Windows installation tree. -/
def windows_dir : String := "windows_dir"

/-- Mount point for the read-write WIM boot-image mounts. -/
def wimtemp_dir : String := "wimtemp_dir"

/-- The boot-image container inside the copied Windows tree. -/
def boot_wim_path : String := windows_dir ++ "/sources/boot.wim"

/-- Outcome of one `shutil.copytree` call, as `copy_tree`'s handlers
distinguish them: success; the specifically caught `FileExistsError` and
`PermissionError`; a `shutil.Error` (whose first argument is the list of
per-file triples the handler iterates over); or any other exception, on which
the handler's `for src, dst, msg in e.args[0]` itself raises, so an error
escapes `copy_tree`. -/
inductive CopyRes
  | ok
  | fileExistsErr
  | permissionErr
  | shutilErr
  | otherErr
  deriving DecidableEq, Repr

/-- `copy_tree`: every handled exception is logged and swallowed (the call
returns normally); a non-`shutil.Error` exception escapes the handler. -/
def copy_tree (res : CopyRes) (src dest : String) : List Ev × PyFlow :=
  match res with
  | .ok => ([.copyOp src dest], .ok)
  | .fileExistsErr => ([.copyOp src dest, .err (dest ++ " already exists.")], .ok)
  | .permissionErr =>
    ([.copyOp src dest,
      .err ("Do not have the necessary permissions to copy to " ++ dest ++ ".")], .ok)
  | .shutilErr => ([.copyOp src dest, .err "Error occurred when copying"], .ok)
  | .otherErr => ([.copyOp src dest], .exc)

/-- `mount_iso`: missing paths are logged and skipped (an early `return`, not
an error); a failing `mount` command or an empty directory after mounting is
fatal (`self.fail`). -/
def mount_iso (st : MountState) (isoExists mpExists : Bool) (exitCode : Nat)
    (stderr : String) (mountedEmpty : Bool) (iso_path mount_point : String) :
    MountState × List Ev × PyFlow :=
  if ¬ isoExists then
    (st, [.err ("ISO path " ++ iso_path ++ " does not exist.")], .ok)
  else if ¬ mpExists then
    (st, [.err ("Mount point " ++ mount_point ++ " does not exist.")], .ok)
  else
    match run_subprocess ["sudo", "mount", "-o", "loop", iso_path, mount_point] exitCode stderr with
    | (evs, .exc) =>
      (st, evs ++ [.err ("Failed to mount " ++ iso_path ++ " to " ++ mount_point)], .exited)
    | (evs, _) =>
      let st' : MountState := ⟨mount_point :: st.mounted⟩
      if mountedEmpty then
        (st', evs ++ [.err ("Failed to mount " ++ iso_path ++ " to " ++ mount_point
          ++ ". The directory is empty.")], .exited)
      else
        (st', evs ++ [.info ("Successfully mounted " ++ iso_path ++ " to " ++ mount_point ++ ".")],
         .ok)

/-- `mount_wim`: a missing WIM file is logged and skipped; the
`sudo wimmountrw` command is run directly and a `CalledProcessError` is caught
and only logged — the method returns normally in every case. -/
def mount_wim (st : MountState) (wimExists : Bool) (exitCode : Nat)
    (stderr : String) (wim_path : String) (index : Nat) : MountState × List Ev × PyFlow :=
  if ¬ wimExists then
    (st, [.err ("WIM file " ++ wim_path ++ " does not exist.")], .ok)
  else if exitCode ≠ 0 then
    (st, [.cmd ["sudo", "wimmountrw", wim_path, toString index, wimtemp_dir],
          .err ("Failed to mount WIM image. Error: " ++ stderr)], .ok)
  else
    (⟨wimtemp_dir :: st.mounted⟩,
     [.cmd ["sudo", "wimmountrw", wim_path, toString index, wimtemp_dir],
      .info "Successfully mounted WIM image."], .ok)

/-- `unmount_wim`: `sudo wimunmount --commit` through `run_subprocess`; a
non-zero exit raises, and `unmount_wim` has no handler, so the exception
propagates to the caller. -/
def unmount_wim (st : MountState) (exitCode : Nat) (stderr : String) :
    MountState × List Ev × PyFlow :=
  match run_subprocess ["sudo", "wimunmount", "--commit", wimtemp_dir] exitCode stderr with
  | (evs, .exc) => (st, evs, .exc)
  | (evs, _) => (⟨st.mounted.erase wimtemp_dir⟩, evs, .ok)

/-- Environment outcomes for one full `create_custom_iso` run: one field per
external effect the code branches on, in flow order. -/
structure IsoOracle where
  virtioIsoExists : Bool
  virtioMountExit : Nat
  virtioMountedEmpty : Bool
  virtioCopy : CopyRes
  virtioUn : UnmountOracle
  windowsIsoExists : Bool
  windowsMountExit : Nat
  windowsMountedEmpty : Bool
  windowsCopy : CopyRes
  windowsUn : UnmountOracle
  wimExists : Bool
  wimMount1Exit : Nat
  wimCopy1 : CopyRes
  wimUnmount1Exit : Nat
  wimMount2Exit : Nat
  wimCopy2 : CopyRes
  wimUnmount2Exit : Nat
  mkisofsExit : Nat
  finVirtioUn : UnmountOracle
  finWindowsUn : UnmountOracle
  deriving Repr

/-- `copy_virtio_drivers`: mount the VirtIO ISO, copy its tree, unmount — an
exception from the copy is caught and converted to `self.fail`; `mount_iso`
and `unmount` exit the process themselves on their failures (`sys.exit` is not
caught by the `except Exception` handler). -/
def copy_virtio_drivers (st : MountState) (o : IsoOracle) (virtio_iso : String) :
    MountState × List Ev × PyFlow :=
  match mount_iso st o.virtioIsoExists true o.virtioMountExit "" o.virtioMountedEmpty
      virtio_iso virtio_mount_dir with
  | (st1, e1, PyFlow.exited) => (st1, e1, .exited)
  | (st1, e1, _) =>
    match copy_tree o.virtioCopy virtio_mount_dir drivers_dir with
    | (e2, PyFlow.exc) =>
      (st1, e1 ++ e2 ++ [.err "Error in copy_virtio_drivers",
        .err "Failed to copy VirtIO drivers."], .exited)
    | (e2, _) =>
      match unmount st1 o.virtioUn virtio_mount_dir with
      | (st3, e3, f3) => (st3, e1 ++ e2 ++ e3, f3)

/-- `copy_windows_files`: same shape as `copy_virtio_drivers` for the Windows
ISO. -/
def copy_windows_files (st : MountState) (o : IsoOracle) (win_iso : String) :
    MountState × List Ev × PyFlow :=
  match mount_iso st o.windowsIsoExists true o.windowsMountExit "" o.windowsMountedEmpty
      win_iso windows_mount_dir with
  | (st1, e1, PyFlow.exited) => (st1, e1, .exited)
  | (st1, e1, _) =>
    match copy_tree o.windowsCopy windows_mount_dir windows_dir with
    | (e2, PyFlow.exc) =>
      (st1, e1 ++ e2 ++ [.err "Error in copy_windows_files",
        .err "Failed to copy Windows files."], .exited)
    | (e2, _) =>
      match unmount st1 o.windowsUn windows_mount_dir with
      | (st3, e3, f3) => (st3, e1 ++ e2 ++ e3, f3)

/-- `add_drivers_to_windows_boot_images`: for each boot-image index 1 and 2,
mount the WIM read-write, copy the drivers tree in, unmount with commit.
There is no `try` here: an exception from `copy_tree` or `unmount_wim`
propagates to the caller. -/
def add_drivers_to_windows_boot_images (st : MountState) (o : IsoOracle) :
    MountState × List Ev × PyFlow :=
  match mount_wim st o.wimExists o.wimMount1Exit "" boot_wim_path 1 with
  | (st1, e1, _) =>
    match copy_tree o.wimCopy1 drivers_dir wimtemp_dir with
    | (e2, PyFlow.exc) => (st1, e1 ++ e2, .exc)
    | (e2, _) =>
      match unmount_wim st1 o.wimUnmount1Exit "" with
      | (st3, e3, PyFlow.exc) => (st3, e1 ++ e2 ++ e3, .exc)
      | (st3, e3, _) =>
        match mount_wim st3 o.wimExists o.wimMount2Exit "" boot_wim_path 2 with
        | (st4, e4, _) =>
          match copy_tree o.wimCopy2 drivers_dir wimtemp_dir with
          | (e5, PyFlow.exc) => (st4, e1 ++ e2 ++ e3 ++ e4 ++ e5, .exc)
          | (e5, _) =>
            match unmount_wim st4 o.wimUnmount2Exit "" with
            | (st6, e6, f6) => (st6, e1 ++ e2 ++ e3 ++ e4 ++ e5 ++ e6, f6)

/-- The fixed `mkisofs` invocation of `generate_custom_iso`. -/
def mkisofs_cmd : List String :=
  ["sudo", "mkisofs", "-allow-limited-size", "-o", "CustomWin10.iso", "-b", "boot/etfsboot.com",
   "-no-emul-boot", "-boot-load-seg", "0x07C0", "-boot-load-size", "8", "-iso-level", "2",
   "-J", "-l", "-D", "-N", "-joliet-long", "-relaxed-filenames", "-V", "Custom Win10",
   "-allow-lowercase", "-hide", "boot.catalog", windows_dir]

/-- `generate_custom_iso`: run `mkisofs` through `run_subprocess` (an
exception propagates to `create_custom_iso`); on success return the fixed
output name. -/
def generate_custom_iso (exitCode : Nat) : List Ev × PyFlow × Option String :=
  match run_subprocess mkisofs_cmd exitCode "" with
  | (evs, PyFlow.exc) => (evs, .exc, none)
  | (evs, _) => (evs ++ [.info "Custom ISO generated successfully."], .ok, some "CustomWin10.iso")

/-- The `finally` loop of `create_custom_iso`: `for iso in mounted_isos:
self.unmount(iso)` in list (that is: mount) order; a fatal unmount stops the
loop because `sys.exit` raises. -/
def unmount_each (o : IsoOracle) : MountState → List String → MountState × List Ev × PyFlow
  | st, [] => (st, [], .ok)
  | st, mp :: rest =>
    let oracle := if mp = virtio_mount_dir then o.finVirtioUn else o.finWindowsUn
    match unmount st oracle mp with
    | (st1, e1, PyFlow.exited) => (st1, e1, .exited)
    | (st1, e1, _) =>
      match unmount_each o st1 rest with
      | (st2, e2, f2) => (st2, e1 ++ e2, f2)

/-- Result of a whole `create_custom_iso` run: the final mount table, the
event trace, the `mounted_isos` cleanup list as accumulated, the final control
flow and the returned path (if any). -/
structure IsoRunResult where
  state : MountState
  events : List Ev
  mountedIsos : List String
  outcome : PyFlow
  result : Option String
  deriving DecidableEq, Repr

/-- `create_custom_iso`: the `try` body mounts/copies/unmounts the two ISOs
(appending each mount directory to `mounted_isos` only after its copy helper
returned), injects drivers into the WIM boot images, and masters the ISO; the
`except Exception` arm converts a propagating exception into `self.fail`; the
`finally` arm unmounts the recorded ISO mount points.  `prepare_directories_for_custom_iso`
recreates all scratch directories empty, so the run starts with an empty mount
table. -/
def create_custom_iso (o : IsoOracle) (win_iso virtio_iso : String) : IsoRunResult :=
  let st0 : MountState := ⟨[]⟩
  let body : MountState × List Ev × List String × PyFlow × Option String :=
    match copy_virtio_drivers st0 o virtio_iso with
    | (st1, e1, PyFlow.ok) =>
      match copy_windows_files st1 o win_iso with
      | (st2, e2, PyFlow.ok) =>
        match add_drivers_to_windows_boot_images st2 o with
        | (st3, e3, PyFlow.ok) =>
          match generate_custom_iso o.mkisofsExit with
          | (e4, PyFlow.exc, _) =>
            (st3, e1 ++ e2 ++ e3 ++ e4, [virtio_mount_dir, windows_mount_dir], .exc, none)
          | (e4, _, r) =>
            (st3, e1 ++ e2 ++ e3 ++ e4, [virtio_mount_dir, windows_mount_dir], .ok, r)
        | (st3, e3, f3) =>
          (st3, e1 ++ e2 ++ e3, [virtio_mount_dir, windows_mount_dir], f3, none)
      | (st2, e2, f2) => (st2, e1 ++ e2, [virtio_mount_dir], f2, none)
    | (st1, e1, f1) => (st1, e1, [], f1, none)
  match body with
  | (stB, evB, isosB, flowB, resB) =>
    let afterExcept : MountState × List Ev × PyFlow × Option String :=
      match flowB with
      | .exc => (stB, evB ++ [.err "Failed to create custom ISO."], .exited, none)
      | f => (stB, evB, f, resB)
    match afterExcept with
    | (stE, evE, flowE, resE) =>
      match unmount_each o stE isosB with
      | (stF, evF, PyFlow.exited) =>
        { state := stF, events := evE ++ evF, mountedIsos := isosB,
          outcome := .exited, result := none }
      | (stF, evF, _) =>
        { state := stF, events := evE ++ evF, mountedIsos := isosB,
          outcome := flowE,
          result := match flowE with | .ok => resE | _ => none }

/-- An unmount whose command succeeds against an empty directory. -/
def ok_unmount : UnmountOracle := ⟨false, 0, "", false⟩

/-- The environment in which every external command and copy succeeds. -/
def all_ok_oracle : IsoOracle :=
  ⟨true, 0, false, .ok, ok_unmount, true, 0, false, .ok, ok_unmount,
   true, 0, .ok, 0, 0, .ok, 0, 0, ok_unmount, ok_unmount⟩

/-- All commands succeed, but the copy into the first mounted WIM image raises
a non-`shutil.Error` exception (for example an `OSError`), which escapes
`copy_tree`'s broken handler. -/
def wim_copy_fault_oracle : IsoOracle := { all_ok_oracle with wimCopy1 := .otherErr }

/-- All commands succeed except the first `wimmountrw`, which exits non-zero. -/
def wim_mount_fail_oracle : IsoOracle := { all_ok_oracle with wimMount1Exit := 1 }

/-- `main`'s image-preparation dispatch projected to the final ISO path it
hands to `create_vm`: mode 1 passes the user's path through
`handle_user_provided_iso`; modes 2 and 3 build the composite ISO and return
its path. -/
def final_iso_path (choice provided_win_iso : String) (o : IsoOracle) : Option String :=
  if choice = "1" then some (handle_user_provided_iso provided_win_iso)
  else if choice = "2" then (create_custom_iso o provided_win_iso "virtio-win.iso").result
  else if choice = "3" then (create_custom_iso o "win10x64.iso" "virtio-win.iso").result
  else none

/-! ## Config backup and editing (`backup_file`, `modify_and_backup_*_config`) -/

/-- The filesystem facts one config file's flow branches on: whether the live
file and its `.backup` exist (`os.path.isfile`), and the live file's content. -/
structure ConfigState where
  configExists : Bool
  backupExists : Bool
  content : List Char
  deriving DecidableEq, Repr

/-- `backup_file`: when the live file exists, `sudo cp` is run with no
`check=True` and its exit status is never inspected — the success log line is
emitted regardless; only a Python-level exception from `subprocess.run`
(`cpRaises`) reaches the handler and `self.fail`.  A missing live file is a
logged warning. -/
def backup_file (path : String) (st : ConfigState) (cpRaises : Bool) (cpExit : Nat) :
    ConfigState × List Ev × PyFlow :=
  if st.configExists then
    if cpRaises then
      (st, [.err ("Failed to create backup of " ++ path ++ ".")], .exited)
    else
      ({ st with backupExists := if cpExit = 0 then true else st.backupExists },
       [.cmd ["sudo", "cp", path, path ++ ".backup"],
        .info ("Backup of " ++ path ++ " created.")], .ok)
  else
    (st, [.warn ("File " ++ path ++ " does not exist, skipping backup.")], .ok)

/-- The two extra logging directives appended to `libvirtd.conf`. -/
def additional_settings : List Char :=
  "log_filters=\"3:qemu 1:libvirt\"\nlog_outputs=\"2:file:/var/log/libvirt/libvirtd.log\"\n".toList

/-- First appended directive line, as containment-checked by the source. -/
def additional_line1 : List Char := "log_filters=\"3:qemu 1:libvirt\"".toList

/-- Second appended directive line. -/
def additional_line2 : List Char := "log_outputs=\"2:file:/var/log/libvirt/libvirtd.log\"".toList

/-- Environment outcomes of one `modify_and_backup_libvirt_config` run. -/
structure BackupOracle where
  cpRaises : Bool
  cpExit : Nat
  read1Ok : Bool
  write1Ok : Bool
  read2Ok : Bool
  write2Ok : Bool
  appendOk : Bool
  deriving Repr

/-- The backup step of both `modify_and_backup_*` functions: `backup_file` is
called only when no `<path>.backup` exists; otherwise the backup is skipped
with a log line. -/
def backup_phase (path : String) (st : ConfigState) (cpRaises : Bool) (cpExit : Nat) :
    ConfigState × List Ev × PyFlow :=
  if ¬ st.backupExists then
    backup_file path st cpRaises cpExit
  else
    (st, [.info "Backup file already exists. Skipping backup."], .ok)

/-- The edit steps of `modify_and_backup_libvirt_config`, applied to the file
content after the backup step: uncomment the two socket directives, then
append the logging directives when they are not both already present
(`sudo tee -a` with `check=True`, whose `CalledProcessError` is caught by the
surrounding `except Exception` and turned into `self.fail`). -/
def libvirt_edits (content : List Char) (o : BackupOracle) :
    List Char × List Ev × PyFlow :=
  match modify_config LIBVIRT_CONFIG_PATH content sock_group_commented
      sock_group_uncommented o.read1Ok o.write1Ok with
  | (c2, e2, PyFlow.exited) => (c2, e2, .exited)
  | (c2, e2, _) =>
    match modify_config LIBVIRT_CONFIG_PATH c2 sock_perms_commented
        sock_perms_uncommented o.read2Ok o.write2Ok with
    | (c3, e3, PyFlow.exited) => (c3, e2 ++ e3, .exited)
    | (c3, e3, _) =>
      if containsSub c3 additional_line1 && containsSub c3 additional_line2 then
        (c3,
         e2 ++ e3
           ++ [.info "Additional settings already exist in libvirt configuration. Skipping.",
               .info "Libvirt configuration successfully modified and backed up."], .ok)
      else if o.appendOk then
        (c3 ++ additional_settings,
         e2 ++ e3
           ++ [.cmd ["sudo", "tee", "-a", LIBVIRT_CONFIG_PATH],
               .info "Libvirt configuration successfully modified and backed up."], .ok)
      else
        (c3,
         e2 ++ e3
           ++ [.cmd ["sudo", "tee", "-a", LIBVIRT_CONFIG_PATH],
               .err "Failed to modify and backup libvirt configuration."], .exited)

/-- `modify_and_backup_libvirt_config`: require the config file, run the
backup step, then the edit steps. -/
def modify_and_backup_libvirt_config (st : ConfigState) (o : BackupOracle) :
    ConfigState × List Ev × PyFlow :=
  if ¬ st.configExists then
    (st, [.err (LIBVIRT_CONFIG_PATH ++ " not found. Exiting.")], .exited)
  else
    match backup_phase LIBVIRT_CONFIG_PATH st o.cpRaises o.cpExit with
    | (st1, e1, PyFlow.exited) => (st1, e1, .exited)
    | (st1, e1, _) =>
      match libvirt_edits st1.content o with
      | (c, e2, f) => ({ st1 with content := c }, e1 ++ e2, f)

/-- Commented `user` directive searched for in `qemu.conf`. -/
def user_commented : List Char := "#user = \"root\"".toList

/-- Its replacement, naming the invoking user. -/
def user_replacement (user : String) : List Char := ("user = \"" ++ user ++ "\"").toList

/-- Commented `group` directive searched for in `qemu.conf`. -/
def group_commented : List Char := "#group = \"root\"".toList

/-- Its replacement. -/
def group_libvirt : List Char := "group = \"libvirt\"".toList

/-- Environment outcomes of one `modify_and_backup_qemu_config` run. -/
structure QemuOracle where
  cpRaises : Bool
  cpExit : Nat
  read1Ok : Bool
  write1Ok : Bool
  read2Ok : Bool
  write2Ok : Bool
  deriving Repr

/-- The edit steps of `modify_and_backup_qemu_config`: rewrite the `user`
directive to the invoking user and the `group` directive to `libvirt`. -/
def qemu_edits (content : List Char) (user : String) (o : QemuOracle) :
    List Char × List Ev × PyFlow :=
  match modify_config QEMU_CONFIG_PATH content user_commented
      (user_replacement user) o.read1Ok o.write1Ok with
  | (c2, e2, PyFlow.exited) => (c2, e2, .exited)
  | (c2, e2, _) =>
    match modify_config QEMU_CONFIG_PATH c2 group_commented group_libvirt
        o.read2Ok o.write2Ok with
    | (c3, e3, PyFlow.exited) => (c3, e2 ++ e3, .exited)
    | (c3, e3, _) =>
      (c3, e2 ++ e3 ++ [.info "qemu configuration successfully modified and backed up."], .ok)

/-- `modify_and_backup_qemu_config`: same shape as the libvirt variant, with
the `user`/`group` rewrites and no appended block. -/
def modify_and_backup_qemu_config (st : ConfigState) (user : String) (o : QemuOracle) :
    ConfigState × List Ev × PyFlow :=
  if ¬ st.configExists then
    (st, [.err (QEMU_CONFIG_PATH ++ " not found. Exiting.")], .exited)
  else
    match backup_phase QEMU_CONFIG_PATH st o.cpRaises o.cpExit with
    | (st1, e1, PyFlow.exited) => (st1, e1, .exited)
    | (st1, e1, _) =>
      match qemu_edits st1.content user o with
      | (c, e2, f) => ({ st1 with content := c }, e1 ++ e2, f)

/-- An event that writes to the live config file: any elevated `tee`
invocation (plain or with `-a`). -/
def is_write_ev : Ev → Bool
  | .cmd ("sudo" :: "tee" :: _) => true
  | _ => false

/-- The backup copy command for a config path. -/
def cp_ev (path : String) : Ev := .cmd ["sudo", "cp", path, path ++ ".backup"]

/-- Scans a trace: `true` when no write event occurs before the backup copy
command (a trace with no write at all also qualifies). -/
def backup_before_writes (path : String) : List Ev → Bool
  | [] => true
  | e :: t =>
    if is_write_ev e then false
    else if e = cp_ev path then true
    else backup_before_writes path t

/-- A `libvirtd.conf` whose live file exists, has no backup yet, and holds
both commented socket directives. -/
def fresh_libvirt_state : ConfigState :=
  ⟨true, false, ("#unix_sock_group = \"libvirt\"\n#unix_sock_rw_perms = \"0770\"\n").toList⟩

/-- The environment in which the backup `cp` exits non-zero (for example the
disk is full) but every other step succeeds. -/
def failing_cp_oracle : BackupOracle := ⟨false, 1, true, true, true, true, true⟩

/-- The environment in which every step of the libvirt config flow succeeds. -/
def ok_backup_oracle : BackupOracle := ⟨false, 0, true, true, true, true, true⟩

/-- The environment in which every step of the qemu config flow succeeds. -/
def ok_qemu_oracle : QemuOracle := ⟨false, 0, true, true, true, true⟩

/-- The environment in which `subprocess.run` raises during the backup copy. -/
def raising_cp_oracle : BackupOracle := ⟨true, 0, true, true, true, true, true⟩

/-- A config file that exists and already has a `.backup`. -/
def backed_up_state : ConfigState := ⟨true, true, []⟩

/-- A `qemu.conf` whose live file exists, has no backup yet, and holds both
commented directives. -/
def fresh_qemu_state : ConfigState :=
  ⟨true, false, ("#user = \"root\"\n#group = \"root\"\n").toList⟩

end MXS

/-! ## Theorems for claims C1, C2, C9, C10 -/

namespace MXS

/-- C1: the allocation validator fails exactly when some allocated dimension
strictly exceeds its available counterpart, and succeeds without error on
every triple within bounds in all three dimensions. -/
theorem validate_allocation_fails_iff_exceeds
    (ar ac ad avr avc avd : Int) :
    (validate_allocation ar ac ad avr avc avd = .error "Invalid resource allocation."
        ↔ (ar > avr ∨ ac > avc ∨ ad > avd)) ∧
    (validate_allocation ar ac ad avr avc avd = .ok ()
        ↔ (ar ≤ avr ∧ ac ≤ avc ∧ ad ≤ avd)) := by
  unfold validate_allocation
  constructor
  · constructor
    · intro h
      by_contra hc
      simp only [if_neg hc] at h
      exact Except.noConfusion h
    · intro h
      simp only [if_pos h]
  · constructor
    · intro h
      by_cases hc : (ar > avr ∨ ac > avc ∨ ad > avd)
      · simp only [if_pos hc] at h
        exact Except.noConfusion h
      · push_neg at hc
        exact ⟨hc.1, hc.2.1, hc.2.2⟩
    · intro h
      have hc : ¬ (ar > avr ∨ ac > avc ∨ ad > avd) := by
        push_neg
        exact ⟨h.1, h.2.1, h.2.2⟩
      simp only [if_neg hc]

/-- C2: automatic allocation returns exactly the integer division by two of
each available quantity; in particular 8000 MB of available RAM yields
4000 MB allocated. -/
theorem auto_allocation_halves :
    (∀ r c d : Nat, auto_allocation r c d = (r / 2, c / 2, d / 2)) ∧
    auto_allocation 8000 4 100 = (4000, 2, 50) := by
  constructor
  · intro r c d
    rfl
  · rfl

/-- C9: for every identifier in the fixed allow-list the resolver returns the
single firmware path; every identifier outside the list is fatal; and for a
supported identifier whose firmware file is absent on disk, the check at the
start of `create_vm` is also fatal. -/
theorem get_uefi_path_allow_list (distro : String) (isfile : String → Bool) :
    (distro ∈ uefi_allow_list → get_uefi_path distro = .ok uefi_firmware_path) ∧
    (distro ∉ uefi_allow_list →
      get_uefi_path distro = .error "Unsupported Linux distribution for UEFI firmware.") ∧
    (distro ∈ uefi_allow_list → isfile uefi_firmware_path = false →
      create_vm_uefi_check distro isfile
        = .error ("UEFI firmware not found at specified path: " ++ uefi_firmware_path)) := by
  refine ⟨fun h => ?_, fun h => ?_, fun h hf => ?_⟩
  · simp [get_uefi_path, h]
  · simp [get_uefi_path, h]
  · simp [create_vm_uefi_check, get_uefi_path, h, hf]

/-- Witness for C9 at the concrete identifiers `"ubuntu"` (supported, firmware
absent) and `"arch"` (unsupported). -/
theorem get_uefi_path_allow_list_witness :
    get_uefi_path "ubuntu" = .ok uefi_firmware_path ∧
    get_uefi_path "arch" = .error "Unsupported Linux distribution for UEFI firmware." ∧
    create_vm_uefi_check "ubuntu" no_file
      = .error ("UEFI firmware not found at specified path: " ++ uefi_firmware_path) :=
  ⟨(get_uefi_path_allow_list "ubuntu" no_file).1 (by decide),
   (get_uefi_path_allow_list "arch" no_file).2.1 (by decide),
   (get_uefi_path_allow_list "ubuntu" no_file).2.2 (by decide) rfl⟩

/-- C10: every choice returned by the re-prompt loop is one of
`"1"/"2"/"3"`, and on such a choice `main`'s dispatch never reaches the fatal
`"Invalid choice."` branch — that branch is unreachable from the prompt. -/
theorem prompt_choice_valid_and_dispatch_reachable
    (inputs : List String) (c : String)
    (h : prompt_for_iso_choice_loop inputs = some c) :
    c ∈ valid_choices ∧ main_dispatch c ≠ .invalidFatal := by
  induction inputs with
  | nil => exact absurd h (by simp [prompt_for_iso_choice_loop])
  | cons a rest ih =>
    unfold prompt_for_iso_choice_loop at h
    by_cases ha : a ∈ valid_choices
    · rw [if_pos ha] at h
      cases h
      refine ⟨ha, ?_⟩
      have ha' : c = "1" ∨ c = "2" ∨ c = "3" := by
        simpa [valid_choices] using ha
      rcases ha' with h1 | h1 | h1 <;> rw [h1] <;> decide
    · rw [if_neg ha] at h
      exact ih h

/-- Witness for C10: on the input sequence `["x", "2"]` the loop re-prompts
past `"x"` and returns `"2"`, which is valid and dispatches normally. -/
theorem prompt_choice_valid_witness :
    prompt_for_iso_choice_loop ["x", "2"] = some "2" ∧
    "2" ∈ valid_choices ∧ main_dispatch "2" ≠ .invalidFatal :=
  ⟨by decide, prompt_choice_valid_and_dispatch_reachable ["x", "2"] "2" (by decide)⟩

end MXS

/-! ## Theorems for claims C6 and C7 -/

namespace MXS

/-- C6 (counterexample): on the concrete file content
`"##unix_sock_group = \"libvirt\"\n"` — which contains the exact commented
search string — one application of the patch leaves a content that still
contains the search string, so the second application modifies the file again
and logs no warning, contradicting the claimed idempotence. -/
theorem modify_config_second_application_edits_again :
    containsSub doubled_comment_content sock_group_commented = true ∧
    (modify_config LIBVIRT_CONFIG_PATH doubled_comment_content
        sock_group_commented sock_group_uncommented true true).1
      = commented_once_content ∧
    containsSub commented_once_content sock_group_commented = true ∧
    (modify_config LIBVIRT_CONFIG_PATH commented_once_content
        sock_group_commented sock_group_uncommented true true).1
      = uncommented_once_content ∧
    uncommented_once_content ≠ commented_once_content ∧
    Ev.warn ("Search string not found in " ++ LIBVIRT_CONFIG_PATH)
      ∉ (modify_config LIBVIRT_CONFIG_PATH commented_once_content
          sock_group_commented sock_group_uncommented true true).2.1 := by
  decide

/-- C6 (amended): with the elevated read and write succeeding, applying the
patch to a content containing the search string replaces its occurrences and
writes the file; and a second application leaves the content unchanged, logs
the warning and does not error precisely when the once-patched content no
longer contains the search string — which the counterexample shows can fail
when an occurrence carries a doubled comment character. -/
theorem modify_config_patch_and_guard (path : String)
    (content search_string replace_string : List Char) :
    (containsSub content search_string = true →
      modify_config path content search_string replace_string true true
        = (replaceSub search_string replace_string content,
           [.cmd ["sudo", "cat", path], .cmd ["sudo", "tee", path],
            .info ("Modified " ++ path ++ ".")], .ok)) ∧
    (containsSub content search_string = false →
      modify_config path content search_string replace_string true true
        = (content,
           [.cmd ["sudo", "cat", path],
            .warn ("Search string not found in " ++ path)], .ok)) := by
  constructor <;> intro h <;> simp [modify_config, h]

/-- Witness for the amended C6 at the singly-commented content: the first
application uncomments the directive; the second is a warning no-op. -/
theorem modify_config_patch_and_guard_witness :
    modify_config LIBVIRT_CONFIG_PATH commented_once_content
        sock_group_commented sock_group_uncommented true true
      = (replaceSub sock_group_commented sock_group_uncommented commented_once_content,
         [.cmd ["sudo", "cat", LIBVIRT_CONFIG_PATH], .cmd ["sudo", "tee", LIBVIRT_CONFIG_PATH],
          .info ("Modified " ++ LIBVIRT_CONFIG_PATH ++ ".")], .ok) ∧
    modify_config LIBVIRT_CONFIG_PATH uncommented_once_content
        sock_group_commented sock_group_uncommented true true
      = (uncommented_once_content,
         [.cmd ["sudo", "cat", LIBVIRT_CONFIG_PATH],
          .warn ("Search string not found in " ++ LIBVIRT_CONFIG_PATH)], .ok) :=
  ⟨(modify_config_patch_and_guard LIBVIRT_CONFIG_PATH commented_once_content
      sock_group_commented sock_group_uncommented).1 (by decide),
   (modify_config_patch_and_guard LIBVIRT_CONFIG_PATH uncommented_once_content
      sock_group_commented sock_group_uncommented).2 (by decide)⟩

/-- C7: unmounting a path that is not currently a mount point logs a single
warning, invokes no external command, does not raise or terminate, and leaves
the mount state unchanged. -/
theorem unmount_not_mounted_noop (st : MountState) (o : UnmountOracle)
    (mount_point : String) (h : is_mounted st mount_point = false) :
    unmount st o mount_point
      = (st, [Ev.warn (mount_point ++ " is not mounted.")], PyFlow.ok) := by
  simp [unmount, h]

/-- Witness for C7: an empty mount table and an oracle whose `umount` would
fail, at the path `"/mnt/d"`. -/
theorem unmount_not_mounted_noop_witness :
    unmount ⟨[]⟩ ⟨false, 1, "boom", true⟩ "/mnt/d"
      = (⟨[]⟩, [Ev.warn ("/mnt/d" ++ " is not mounted.")], PyFlow.ok) :=
  unmount_not_mounted_noop ⟨[]⟩ ⟨false, 1, "boom", true⟩ "/mnt/d" (by decide)

end MXS

/-! ## Theorems for claims C3, C5 and C8 -/

namespace MXS

/-- C3 (counterexample): in the environment where the first `wimmountrw` exits
non-zero and every other command succeeds, the failed command is only logged:
the flow goes on to copy the drivers tree and the whole boot-image loop
returns normally — a non-zero exit of an invoked external command that is not
fatal, with operations continuing past it. -/
theorem failed_wim_mount_not_fatal :
    wim_mount_fail_oracle.wimMount1Exit ≠ 0 ∧
    Ev.cmd ["sudo", "wimmountrw", boot_wim_path, "1", wimtemp_dir]
      ∈ (add_drivers_to_windows_boot_images ⟨[]⟩ wim_mount_fail_oracle).2.1 ∧
    Ev.copyOp drivers_dir wimtemp_dir
      ∈ (add_drivers_to_windows_boot_images ⟨[]⟩ wim_mount_fail_oracle).2.1 ∧
    (add_drivers_to_windows_boot_images ⟨[]⟩ wim_mount_fail_oracle).2.2 = PyFlow.ok := by
  decide

/-- C3 (amended): commands invoked through `run_subprocess` are fatal on a
non-zero exit — the captured standard-error is logged and an exception is
raised, which the callers turn into process termination; but `mount_wim` runs
its command directly, and a non-zero exit there is only logged with the
captured standard-error, after which execution continues normally. -/
theorem run_subprocess_fatal_mount_wim_continues :
    (∀ (c : List String) (exitCode : Nat) (stderr : String), exitCode ≠ 0 →
      run_subprocess c exitCode stderr
        = ([.cmd c, .err ("Command failed. Error: " ++ stderr)], PyFlow.exc)) ∧
    (∀ (st : MountState) (exitCode : Nat) (stderr wim_path : String) (index : Nat),
      exitCode ≠ 0 →
      mount_wim st true exitCode stderr wim_path index
        = (st, [.cmd ["sudo", "wimmountrw", wim_path, toString index, wimtemp_dir],
                .err ("Failed to mount WIM image. Error: " ++ stderr)], PyFlow.ok)) := by
  constructor
  · intro c exitCode stderr h
    simp [run_subprocess, h]
  · intro st exitCode stderr wim_path index h
    simp [mount_wim, h]

/-- Witness for the amended C3 at exit code 1. -/
theorem run_subprocess_fatal_mount_wim_continues_witness :
    run_subprocess ["sudo", "umount", "d"] 1 "boom"
      = ([.cmd ["sudo", "umount", "d"], .err ("Command failed. Error: " ++ "boom")], PyFlow.exc) ∧
    mount_wim ⟨[]⟩ true 1 "boom" boot_wim_path 1
      = (⟨[]⟩, [.cmd ["sudo", "wimmountrw", boot_wim_path, toString 1, wimtemp_dir],
                .err ("Failed to mount WIM image. Error: " ++ "boom")], PyFlow.ok) :=
  ⟨run_subprocess_fatal_mount_wim_continues.1 ["sudo", "umount", "d"] 1 "boom" (by decide),
   run_subprocess_fatal_mount_wim_continues.2 ⟨[]⟩ 1 "boom" boot_wim_path 1 (by decide)⟩

/-- C5: mode 1 returns exactly the user-provided path unmodified, and each of
the three modes yields a single path string (modes 2 and 3 the path of the
generated composite ISO, shown on the fully successful environment). -/
theorem handle_user_provided_iso_identity :
    (∀ p : String, handle_user_provided_iso p = p) ∧
    (∀ (p : String) (o : IsoOracle), final_iso_path "1" p o = some p) ∧
    (final_iso_path "2" "mywin.iso" all_ok_oracle).isSome = true ∧
    (final_iso_path "3" "mywin.iso" all_ok_oracle).isSome = true := by
  refine ⟨fun p => rfl, fun p o => rfl, ?_, ?_⟩ <;> decide

/-- C8 (counterexample): all external commands succeed, but the copy into the
first mounted WIM boot image raises a non-`shutil.Error` exception; the run
aborts, the `finally` block only unmounts the two recorded ISO mount points
(already unmounted inline), and the WIM image stays mounted with no
`wimunmount` ever invoked — a mount performed in the flow that is not
unmounted on a failure exit path. -/
theorem create_custom_iso_leaves_wim_mounted :
    (create_custom_iso wim_copy_fault_oracle "win10.iso" "virtio-win.iso").state.mounted
      = [wimtemp_dir] ∧
    (create_custom_iso wim_copy_fault_oracle "win10.iso" "virtio-win.iso").outcome
      = PyFlow.exited ∧
    Ev.cmd ["sudo", "wimunmount", "--commit", wimtemp_dir]
      ∉ (create_custom_iso wim_copy_fault_oracle "win10.iso" "virtio-win.iso").events := by
  decide

/-- C8 (amended): a failed unmount of a mounted path — non-zero exit,
permission error, or a non-empty directory afterwards — is fatal; and on a run
in which every command and copy succeeds, every mount (the two ISO mounts in
the `finally` cleanup list, unmounted in mount order, and the WIM mounts
inline) is released and the flow completes.  The WIM mounts themselves are
outside the `finally` block, so a failure between a WIM mount and its inline
unmount exits with the image still mounted, as the counterexample shows. -/
theorem unmount_failure_fatal_and_clean_run_unmounts_all :
    (∀ (st : MountState) (o : UnmountOracle) (mp : String),
      is_mounted st mp = true → o.exitCode ≠ 0 →
      (unmount st o mp).2.2 = PyFlow.exited) ∧
    (∀ (st : MountState) (o : UnmountOracle) (mp : String),
      is_mounted st mp = true → o.permError = true →
      (unmount st o mp).2.2 = PyFlow.exited) ∧
    (∀ (st : MountState) (o : UnmountOracle) (mp : String),
      is_mounted st mp = true → o.nonEmptyAfter = true →
      (unmount st o mp).2.2 = PyFlow.exited) ∧
    ((create_custom_iso all_ok_oracle "win10.iso" "virtio-win.iso").state.mounted = [] ∧
     (create_custom_iso all_ok_oracle "win10.iso" "virtio-win.iso").outcome = PyFlow.ok ∧
     (create_custom_iso all_ok_oracle "win10.iso" "virtio-win.iso").result
       = some "CustomWin10.iso" ∧
     (create_custom_iso all_ok_oracle "win10.iso" "virtio-win.iso").mountedIsos
       = [virtio_mount_dir, windows_mount_dir]) := by
  refine ⟨?_, ?_, ?_, by decide⟩
  · intro st o mp h1 h2
    by_cases hp : o.permError <;> simp [unmount, h1, hp, run_subprocess, h2]
  · intro st o mp h1 h2
    simp [unmount, h1, h2]
  · intro st o mp h1 h2
    by_cases hp : o.permError
    · simp [unmount, h1, hp]
    · by_cases he : o.exitCode = 0
      · simp [unmount, h1, hp, he, run_subprocess, h2]
      · simp [unmount, h1, hp, run_subprocess, he]

/-- Witness for the amended C8: a mounted path `"m"` under a failing command,
a permission error, and a non-empty directory afterwards, respectively. -/
theorem unmount_failure_fatal_witness :
    (unmount ⟨["m"]⟩ ⟨false, 1, "boom", false⟩ "m").2.2 = PyFlow.exited ∧
    (unmount ⟨["m"]⟩ ⟨true, 0, "", false⟩ "m").2.2 = PyFlow.exited ∧
    (unmount ⟨["m"]⟩ ⟨false, 0, "", true⟩ "m").2.2 = PyFlow.exited :=
  ⟨unmount_failure_fatal_and_clean_run_unmounts_all.1 ⟨["m"]⟩ ⟨false, 1, "boom", false⟩ "m"
     (by decide) (by decide),
   unmount_failure_fatal_and_clean_run_unmounts_all.2.1 ⟨["m"]⟩ ⟨true, 0, "", false⟩ "m"
     (by decide) rfl,
   unmount_failure_fatal_and_clean_run_unmounts_all.2.2.1 ⟨["m"]⟩ ⟨false, 0, "", true⟩ "m"
     (by decide) rfl⟩

end MXS

/-! ## Theorems for claim C4 -/

namespace MXS

/-- Helper: `modify_config` never emits a backup copy command. -/
theorem cp_ev_not_in_modify_config (p path : String) (content s r : List Char) (ro wo : Bool) :
    cp_ev p ∉ (modify_config path content s r ro wo).2.1 := by
  unfold modify_config cp_ev
  split
  · simp
  · split
    · split <;> simp
    · simp

/-- Helper: the libvirt edit steps never emit a backup copy command. -/
theorem cp_ev_not_in_libvirt_edits (p : String) (content : List Char) (o : BackupOracle) :
    cp_ev p ∉ (libvirt_edits content o).2.1 := by
  rcases hm2 : modify_config LIBVIRT_CONFIG_PATH content sock_group_commented
      sock_group_uncommented o.read1Ok o.write1Ok with ⟨c2, e2, f2⟩
  have h2 : cp_ev p ∉ e2 := by
    have := cp_ev_not_in_modify_config p LIBVIRT_CONFIG_PATH content sock_group_commented
      sock_group_uncommented o.read1Ok o.write1Ok
    rw [hm2] at this
    exact this
  rcases hm3 : modify_config LIBVIRT_CONFIG_PATH c2 sock_perms_commented
      sock_perms_uncommented o.read2Ok o.write2Ok with ⟨c3, e3, f3⟩
  have h3 : cp_ev p ∉ e3 := by
    have := cp_ev_not_in_modify_config p LIBVIRT_CONFIG_PATH c2 sock_perms_commented
      sock_perms_uncommented o.read2Ok o.write2Ok
    rw [hm3] at this
    exact this
  unfold libvirt_edits
  rw [hm2]
  cases f2
  case exited => exact h2
  all_goals
    dsimp only
    rw [hm3]
    cases f3
    case exited => simp [List.mem_append, h2, h3]
    all_goals
      dsimp only
      split
      · simp [List.mem_append, List.mem_cons, cp_ev]
        exact ⟨h2, h3⟩
      · split <;> (simp [List.mem_append, List.mem_cons, cp_ev]; exact ⟨h2, h3⟩)

/-- Helper: the qemu edit steps never emit a backup copy command. -/
theorem cp_ev_not_in_qemu_edits (p : String) (content : List Char) (user : String)
    (o : QemuOracle) : cp_ev p ∉ (qemu_edits content user o).2.1 := by
  rcases hm2 : modify_config QEMU_CONFIG_PATH content user_commented
      (user_replacement user) o.read1Ok o.write1Ok with ⟨c2, e2, f2⟩
  have h2 : cp_ev p ∉ e2 := by
    have := cp_ev_not_in_modify_config p QEMU_CONFIG_PATH content user_commented
      (user_replacement user) o.read1Ok o.write1Ok
    rw [hm2] at this
    exact this
  rcases hm3 : modify_config QEMU_CONFIG_PATH c2 group_commented group_libvirt
      o.read2Ok o.write2Ok with ⟨c3, e3, f3⟩
  have h3 : cp_ev p ∉ e3 := by
    have := cp_ev_not_in_modify_config p QEMU_CONFIG_PATH c2 group_commented group_libvirt
      o.read2Ok o.write2Ok
    rw [hm3] at this
    exact this
  unfold qemu_edits
  rw [hm2]
  cases f2
  case exited => exact h2
  all_goals
    dsimp only
    rw [hm3]
    cases f3
    case exited => simp [List.mem_append, h2, h3]
    all_goals
      dsimp only
      simp [List.mem_append, List.mem_cons, cp_ev]
      exact ⟨h2, h3⟩

/-- Helper: a trace beginning with the backup copy command for `path` has no
write before the backup. -/
theorem backup_before_writes_cons_cp (path : String) (l : List Ev) :
    backup_before_writes path (cp_ev path :: l) = true := by
  simp [backup_before_writes, is_write_ev, cp_ev]

/-- Helper: with a backup already present, the backup step is a skip. -/
theorem backup_phase_skip (path : String) (st : ConfigState) (cpR : Bool) (cpE : Nat)
    (h : st.backupExists = true) :
    backup_phase path st cpR cpE
      = (st, [.info "Backup file already exists. Skipping backup."], .ok) := by
  simp [backup_phase, h]

/-- Helper: with no backup present and no Python-level exception, the backup
step runs `sudo cp` and reports success whatever the copy's exit status;
only a zero exit actually creates the backup file. -/
theorem backup_phase_fresh (path : String) (st : ConfigState) (cpR : Bool) (cpE : Nat)
    (hc : st.configExists = true) (hb : st.backupExists = false) (hr : cpR = false) :
    backup_phase path st cpR cpE
      = ({ st with backupExists := if cpE = 0 then true else st.backupExists },
         [cp_ev path, .info ("Backup of " ++ path ++ " created.")], .ok) := by
  simp [backup_phase, backup_file, hb, hc, hr, cp_ev]

/-- Helper: a Python-level exception during the backup copy is fatal. -/
theorem backup_phase_raises (path : String) (st : ConfigState) (cpR : Bool) (cpE : Nat)
    (hc : st.configExists = true) (hb : st.backupExists = false) (hr : cpR = true) :
    backup_phase path st cpR cpE
      = (st, [.err ("Failed to create backup of " ++ path ++ ".")], .exited) := by
  simp [backup_phase, backup_file, hb, hc, hr]

/-- C4 (counterexample): the live `libvirtd.conf` exists with no backup, and
the `sudo cp` backup command exits non-zero; the run nevertheless completes
normally, the live file is edited (`sudo tee` is invoked), and no backup file
exists afterwards — a failed backup that is not fatal and an edit without a
prior successful backup. -/
theorem failed_backup_copy_not_fatal :
    failing_cp_oracle.cpExit ≠ 0 ∧
    (modify_and_backup_libvirt_config fresh_libvirt_state failing_cp_oracle).2.2 = PyFlow.ok ∧
    (modify_and_backup_libvirt_config fresh_libvirt_state failing_cp_oracle).1.backupExists
      = false ∧
    Ev.cmd ["sudo", "tee", LIBVIRT_CONFIG_PATH]
      ∈ (modify_and_backup_libvirt_config fresh_libvirt_state failing_cp_oracle).2.1 := by
  decide

/-- C4 (amended): for each of the two config files, a backup copy is
attempted at most once across invocations — the attempt is gated on the
`.backup` file not existing, a successful copy records it so later runs skip
— and the attempt precedes every edit of the live file; a Python-level
exception during the backup is fatal.  The copy command's exit status however
is never checked: a failed `sudo cp` is not fatal and the edits proceed
without a successful backup, as the counterexample shows. -/
theorem backup_gating_order_and_unchecked_copy :
    (∀ (st : ConfigState) (o : BackupOracle), st.backupExists = true →
      cp_ev LIBVIRT_CONFIG_PATH ∉ (modify_and_backup_libvirt_config st o).2.1) ∧
    (∀ (st : ConfigState) (user : String) (o : QemuOracle), st.backupExists = true →
      cp_ev QEMU_CONFIG_PATH ∉ (modify_and_backup_qemu_config st user o).2.1) ∧
    (∀ (st : ConfigState) (o : BackupOracle),
      st.configExists = true → st.backupExists = false → o.cpRaises = false →
      backup_before_writes LIBVIRT_CONFIG_PATH
        (modify_and_backup_libvirt_config st o).2.1 = true) ∧
    (∀ (st : ConfigState) (user : String) (o : QemuOracle),
      st.configExists = true → st.backupExists = false → o.cpRaises = false →
      backup_before_writes QEMU_CONFIG_PATH
        (modify_and_backup_qemu_config st user o).2.1 = true) ∧
    (∀ (st : ConfigState) (o : BackupOracle),
      st.configExists = true → st.backupExists = false → o.cpRaises = false → o.cpExit = 0 →
      (modify_and_backup_libvirt_config st o).1.backupExists = true) ∧
    (∀ (st : ConfigState) (o : BackupOracle),
      st.configExists = true → st.backupExists = false → o.cpRaises = true →
      (modify_and_backup_libvirt_config st o).2.2 = PyFlow.exited) := by
  refine ⟨?_, ?_, ?_, ?_, ?_, ?_⟩
  · intro st o h
    by_cases hc : st.configExists = true
    · have hb := backup_phase_skip LIBVIRT_CONFIG_PATH st o.cpRaises o.cpExit h
      rcases hl : libvirt_edits st.content o with ⟨c, e2, f⟩
      have h2 : cp_ev LIBVIRT_CONFIG_PATH ∉ e2 := by
        have := cp_ev_not_in_libvirt_edits LIBVIRT_CONFIG_PATH st.content o
        rw [hl] at this
        exact this
      unfold modify_and_backup_libvirt_config
      rw [if_neg (by simp [hc]), hb]
      dsimp only
      rw [hl]
      dsimp only
      simp [cp_ev]
      exact h2
    · unfold modify_and_backup_libvirt_config
      rw [if_pos hc]
      simp [cp_ev]
  · intro st user o h
    by_cases hc : st.configExists = true
    · have hb := backup_phase_skip QEMU_CONFIG_PATH st o.cpRaises o.cpExit h
      rcases hl : qemu_edits st.content user o with ⟨c, e2, f⟩
      have h2 : cp_ev QEMU_CONFIG_PATH ∉ e2 := by
        have := cp_ev_not_in_qemu_edits QEMU_CONFIG_PATH st.content user o
        rw [hl] at this
        exact this
      unfold modify_and_backup_qemu_config
      rw [if_neg (by simp [hc]), hb]
      dsimp only
      rw [hl]
      dsimp only
      simp [cp_ev]
      exact h2
    · unfold modify_and_backup_qemu_config
      rw [if_pos hc]
      simp [cp_ev]
  · intro st o h1 h2 h3
    have hb := backup_phase_fresh LIBVIRT_CONFIG_PATH st o.cpRaises o.cpExit h1 h2 h3
    rcases hl : libvirt_edits st.content o with ⟨c, e2, f⟩
    unfold modify_and_backup_libvirt_config
    rw [if_neg (by simp [h1]), hb]
    dsimp only
    rw [hl]
    dsimp only
    simp only [List.cons_append]
    exact backup_before_writes_cons_cp _ _
  · intro st user o h1 h2 h3
    have hb := backup_phase_fresh QEMU_CONFIG_PATH st o.cpRaises o.cpExit h1 h2 h3
    rcases hl : qemu_edits st.content user o with ⟨c, e2, f⟩
    unfold modify_and_backup_qemu_config
    rw [if_neg (by simp [h1]), hb]
    dsimp only
    rw [hl]
    dsimp only
    simp only [List.cons_append]
    exact backup_before_writes_cons_cp _ _
  · intro st o h1 h2 h3 h4
    have hb := backup_phase_fresh LIBVIRT_CONFIG_PATH st o.cpRaises o.cpExit h1 h2 h3
    rw [if_pos h4] at hb
    unfold modify_and_backup_libvirt_config
    rw [if_neg (by simp [h1]), hb]
  · intro st o h1 h2 h3
    have hb := backup_phase_raises LIBVIRT_CONFIG_PATH st o.cpRaises o.cpExit h1 h2 h3
    unfold modify_and_backup_libvirt_config
    rw [if_neg (by simp [h1]), hb]

/-- Witness for the amended C4: concrete runs over both config files — backup
skipped when a `.backup` exists, backup preceding the edits on a fresh state
with a successful copy recording it, and a raising backup being fatal. -/
theorem backup_gating_order_witness :
    cp_ev LIBVIRT_CONFIG_PATH
      ∉ (modify_and_backup_libvirt_config backed_up_state ok_backup_oracle).2.1 ∧
    cp_ev QEMU_CONFIG_PATH
      ∉ (modify_and_backup_qemu_config backed_up_state "user1" ok_qemu_oracle).2.1 ∧
    backup_before_writes LIBVIRT_CONFIG_PATH
      (modify_and_backup_libvirt_config fresh_libvirt_state ok_backup_oracle).2.1 = true ∧
    backup_before_writes QEMU_CONFIG_PATH
      (modify_and_backup_qemu_config fresh_qemu_state "user1" ok_qemu_oracle).2.1 = true ∧
    (modify_and_backup_libvirt_config fresh_libvirt_state ok_backup_oracle).1.backupExists
      = true ∧
    (modify_and_backup_libvirt_config fresh_libvirt_state raising_cp_oracle).2.2
      = PyFlow.exited :=
  ⟨backup_gating_order_and_unchecked_copy.1 backed_up_state ok_backup_oracle rfl,
   backup_gating_order_and_unchecked_copy.2.1 backed_up_state "user1" ok_qemu_oracle rfl,
   backup_gating_order_and_unchecked_copy.2.2.1 fresh_libvirt_state ok_backup_oracle rfl rfl rfl,
   backup_gating_order_and_unchecked_copy.2.2.2.1 fresh_qemu_state "user1" ok_qemu_oracle
     rfl rfl rfl,
   backup_gating_order_and_unchecked_copy.2.2.2.2.1 fresh_libvirt_state ok_backup_oracle
     rfl rfl rfl rfl,
   backup_gating_order_and_unchecked_copy.2.2.2.2.2 fresh_libvirt_state raising_cp_oracle
     rfl rfl rfl⟩

end MXS
